import Mathlib

/-!
Shallow embedding of the CPU core of the nes-emulator repository
(`src/cpu/mod.rs`, `src/cpu/instruction.rs`), together with theorems that
check the specification's claims about it.

Conventions used to translate the Rust source:
* `u8` and `u16` values are represented as `Nat`; `wrapping_add` on `u8` is
  addition followed by `% 256`; a plain `+` on `u8`/`u16` is represented as a
  checked addition (`add_u8` / `add_u16`) that yields a panic outcome when the
  sum leaves the type's range, matching the arithmetic-overflow panic of Rust
  builds with debug assertions (release builds wrap instead; the distinction
  is noted wherever a claim depends on it).
* Rust panics (`unimplemented!`, arithmetic overflow, out-of-bounds slice
  indexing, `Option::unwrap` on `None`) are represented by the
  `CpuResult.panicked` outcome; `Err(anyhow!(..))` returns are represented by
  `CpuResult.error`. Panic messages follow Rust's, except that dynamically
  formatted fragments (such as the opcode byte formatted into the decoder's
  message) are omitted.
* The `Bus` and the opcode constant table are external to the core per the
  spec (they are not under `src/`); they are modelled from the spec where
  indicated.
-/

namespace NesCpu

/-- Outcome of a fallible CPU computation: `ok` models a successful `Ok`
return, `error` models an `Err(anyhow!(msg))` return, and `panicked` models a
Rust panic (which in the source aborts execution rather than returning). -/
inductive CpuResult (α : Type) where
  | ok (value : α)
  | error (msg : String)
  | panicked (msg : String)
  deriving DecidableEq

/-- `InstructionOperation` from `src/cpu/instruction.rs`. -/
inductive InstructionOperation where
  | Adc | And | Asl | Bcc | Bcs | Beq | Bit | Bmi | Bne | Bpl | Brk | Bvc | Bvs | Clc
  | Cld | Cli | Clv | Cmp | Cpx | Cpy | Dec | Dex | Dey | Eor | Inc | Inx | Iny | Jmp
  | Jsr | Lda | Ldx | Ldy | Lsr | Nop | Ora | Pha | Php | Pla | Plp | Rol | Ror | Rti
  | Rts | Sbc | Sec | Sed | Sei | Sta | Stx | Sty | Tax | Tay | Tsx | Txa | Txs | Tya
  deriving DecidableEq

/-- `InstructionMode` from `src/cpu/instruction.rs`: the 13 addressing modes. -/
inductive InstructionMode where
  | Implied
  | Accumulator
  | Immediate
  | Relative
  | ZeroPage
  | ZeroPageX
  | ZeroPageY
  | Absolute
  | AbsoluteX
  | AbsoluteY
  | Indirect
  | IndirectX
  | IndirectY
  deriving DecidableEq

/-- The immutable `Instruction` descriptor from `src/cpu/instruction.rs`. -/
structure Instruction where
  opcode : Nat
  operation : InstructionOperation
  mode : InstructionMode
  len : Nat
  cycles_base : Nat
  deriving DecidableEq

/-- Modelled from the spec: the opcode constant table (`mod opcodes`, i.e.
`src/cpu/opcodes.rs`) is not under `src/`; the spec treats it as an opaque
total lookup input (§1, §6). Each constant is given the standard 6502
encoding that its name denotes. -/
def ADC_IMMEDIATE : Nat := 0x69

/-- Modelled from the spec: standard 6502 value for a constant of the missing
`src/cpu/opcodes.rs`. -/
def ASL_ACCUMULATOR : Nat := 0x0A

/-- Modelled from the spec: standard 6502 value for a constant of the missing
`src/cpu/opcodes.rs`. -/
def ASL_ZERO_PAGE_X : Nat := 0x16

/-- Modelled from the spec: standard 6502 value for a constant of the missing
`src/cpu/opcodes.rs`. -/
def CLC_IMPLIED : Nat := 0x18

/-- Modelled from the spec: standard 6502 value for a constant of the missing
`src/cpu/opcodes.rs`. -/
def CLD_IMPLIED : Nat := 0xD8

/-- Modelled from the spec: standard 6502 value for a constant of the missing
`src/cpu/opcodes.rs`. -/
def CLI_IMPLIED : Nat := 0x58

/-- Modelled from the spec: standard 6502 value for a constant of the missing
`src/cpu/opcodes.rs`. -/
def CLV_IMPLIED : Nat := 0xB8

/-- Modelled from the spec: standard 6502 value for a constant of the missing
`src/cpu/opcodes.rs`. -/
def INX_IMPLIED : Nat := 0xE8

/-- Modelled from the spec: standard 6502 value for a constant of the missing
`src/cpu/opcodes.rs`. -/
def INY_IMPLIED : Nat := 0xC8

/-- Modelled from the spec: standard 6502 value for a constant of the missing
`src/cpu/opcodes.rs`. -/
def LDA_ABSOLUTE : Nat := 0xAD

/-- Modelled from the spec: standard 6502 value for a constant of the missing
`src/cpu/opcodes.rs`. -/
def LDX_IMMEDIATE : Nat := 0xA2

/-- Modelled from the spec: standard 6502 value for a constant of the missing
`src/cpu/opcodes.rs`. -/
def NOP_IMPLIED : Nat := 0xEA

/-- Modelled from the spec: standard 6502 value for a constant of the missing
`src/cpu/opcodes.rs`. -/
def SEC_IMPLIED : Nat := 0x38

/-- Modelled from the spec: standard 6502 value for a constant of the missing
`src/cpu/opcodes.rs`. -/
def SED_IMPLIED : Nat := 0xF8

/-- Modelled from the spec: standard 6502 value for a constant of the missing
`src/cpu/opcodes.rs`. -/
def SEI_IMPLIED : Nat := 0x78

/-- Modelled from the spec: standard 6502 value for a constant of the missing
`src/cpu/opcodes.rs`. -/
def TAX_IMPLIED : Nat := 0xAA

/-- Modelled from the spec: standard 6502 value for a constant of the missing
`src/cpu/opcodes.rs`. -/
def TAY_IMPLIED : Nat := 0xA8

/-- Modelled from the spec: standard 6502 value for a constant of the missing
`src/cpu/opcodes.rs`. -/
def TXA_IMPLIED : Nat := 0x8A

/-- Modelled from the spec: standard 6502 value for a constant of the missing
`src/cpu/opcodes.rs`. -/
def TYA_IMPLIED : Nat := 0x98

/-- `Instruction::from_opcode` (`src/cpu/instruction.rs` via the
`match_opcode!` macro): the fixed decode table; any byte not listed hits the
macro's `_ => unimplemented!(..)` arm, i.e. a panic (the source formats the
opcode byte into the panic message, which the model omits). -/
def Instruction.from_opcode (opcode : Nat) : CpuResult Instruction :=
  if opcode = ADC_IMMEDIATE then .ok ⟨opcode, .Adc, .Immediate, 2, 2⟩
  else if opcode = ASL_ACCUMULATOR then .ok ⟨opcode, .Asl, .Accumulator, 1, 2⟩
  else if opcode = ASL_ZERO_PAGE_X then .ok ⟨opcode, .Asl, .ZeroPageX, 2, 6⟩
  else if opcode = CLC_IMPLIED then .ok ⟨opcode, .Clc, .Implied, 1, 2⟩
  else if opcode = CLD_IMPLIED then .ok ⟨opcode, .Cld, .Implied, 1, 2⟩
  else if opcode = CLI_IMPLIED then .ok ⟨opcode, .Cli, .Implied, 1, 2⟩
  else if opcode = CLV_IMPLIED then .ok ⟨opcode, .Clv, .Implied, 1, 2⟩
  else if opcode = INX_IMPLIED then .ok ⟨opcode, .Inx, .Implied, 1, 2⟩
  else if opcode = INY_IMPLIED then .ok ⟨opcode, .Iny, .Implied, 1, 2⟩
  else if opcode = LDA_ABSOLUTE then .ok ⟨opcode, .Lda, .Absolute, 3, 4⟩
  else if opcode = LDX_IMMEDIATE then .ok ⟨opcode, .Ldx, .Immediate, 2, 2⟩
  else if opcode = NOP_IMPLIED then .ok ⟨opcode, .Nop, .Implied, 1, 2⟩
  else if opcode = SEC_IMPLIED then .ok ⟨opcode, .Sec, .Implied, 1, 2⟩
  else if opcode = SED_IMPLIED then .ok ⟨opcode, .Sed, .Implied, 1, 2⟩
  else if opcode = SEI_IMPLIED then .ok ⟨opcode, .Sei, .Implied, 1, 2⟩
  else if opcode = TAX_IMPLIED then .ok ⟨opcode, .Tax, .Implied, 1, 2⟩
  else if opcode = TAY_IMPLIED then .ok ⟨opcode, .Tay, .Implied, 1, 2⟩
  else if opcode = TXA_IMPLIED then .ok ⟨opcode, .Txa, .Implied, 1, 2⟩
  else if opcode = TYA_IMPLIED then .ok ⟨opcode, .Tya, .Implied, 1, 2⟩
  else .panicked "not implemented: no instruction found for opcode"

/-- The `StatusFlags` bitflags byte from `src/cpu/mod.rs`, modelled as its
eight named flags; the source fixes the bit positions (bit 7 = `NEGATIVE`,
bit 6 = `OVERFLOW`, bit 5 = `BREAK_LEFT`, bit 4 = `BREAK_RIGHT`,
bit 3 = `DECIMAL`, bit 2 = `INTERRUPT_DISABLE`, bit 1 = `ZERO`,
bit 0 = `CARRY`); nothing in the modelled core serializes the byte, so the
flags are carried as booleans and `p.set(FLAG, b)` / `insert` / `remove`
become field updates. -/
structure StatusFlags where
  negative : Bool
  overflow : Bool
  break_left : Bool
  break_right : Bool
  decimal : Bool
  interrupt_disable : Bool
  zero : Bool
  carry : Bool
  deriving DecidableEq

/-- `StatusFlags::empty()`: all flags clear. -/
def StatusFlags.empty : StatusFlags :=
  ⟨false, false, false, false, false, false, false, false⟩

/-- `RegisterSet` from `src/cpu/mod.rs`. -/
structure RegisterSet where
  a : Nat
  x : Nat
  y : Nat
  s : Nat
  p : StatusFlags
  pc : Nat
  deriving DecidableEq

/-- `RegisterSet::new`: zeroed registers, `s = 0xFF`, empty flags. -/
def RegisterSet.new : RegisterSet :=
  { a := 0, x := 0, y := 0, s := 0xFF, p := StatusFlags.empty, pc := 0 }

/-- `VectorSet` from `src/cpu/mod.rs`. -/
structure VectorSet where
  nmi : Nat
  reset : Nat
  irq : Nat
  deriving DecidableEq

/-- Modelled from the spec: the Bus (`src/bus.rs`) is not under `src/` and is
an external collaborator per §1; per §6 it is modelled as a total byte memory
(`read(address) -> byte`). -/
abbrev Mem : Type := Nat → Nat

/-- Modelled from the spec: Bus `read(address) -> byte` (§6); the `% 256`
enforces that the bus delivers bytes. -/
def busRead (m : Mem) (address : Nat) : Nat := m address % 256

/-- Modelled from the spec: Bus `read_n(address, count)` (§6) — `count`
consecutive bytes starting at `address`. -/
def read_n (m : Mem) (address count : Nat) : List Nat :=
  (List.range count).map fun k => busRead m (address + k)

/-- Modelled from the spec: Bus `read_u16(address)` (§6) — little-endian
two-byte read (infallible in the model; bus failures are out of scope). -/
def read_u16 (m : Mem) (address : Nat) : Nat :=
  busRead m address + 256 * busRead m (address + 1)

/-- Modelled from the spec: Bus `read_zp_u16(address: byte)` (§6) —
little-endian read of a zero-page pointer with zero-page wraparound. -/
def read_zp_u16 (m : Mem) (address : Nat) : Nat :=
  busRead m (address % 256) + 256 * busRead m ((address + 1) % 256)

/-- `Location` from `src/cpu/mod.rs`. -/
inductive Location where
  | Accumulator
  | Address (address : Nat)
  deriving DecidableEq

/-- `ADDRESS_NMI` (0xFFFA) from `src/cpu/mod.rs`. -/
def ADDRESS_NMI : Nat := 0xFFFA

/-- `ADDRESS_RESET` (0xFFFC) from `src/cpu/mod.rs`. -/
def ADDRESS_RESET : Nat := 0xFFFC

/-- `ADDRESS_IRQ` (0xFFFE) from `src/cpu/mod.rs`. -/
def ADDRESS_IRQ : Nat := 0xFFFE

/-- The `Cpu` of `src/cpu/mod.rs`: bus, registers and vectors. -/
structure Cpu where
  mem : Mem
  registers : RegisterSet
  vectors : VectorSet

/-- `Cpu::new`: read the three vectors once, start the PC at the reset
vector. -/
def Cpu.new (m : Mem) : Cpu :=
  let vectors : VectorSet :=
    ⟨read_u16 m ADDRESS_NMI, read_u16 m ADDRESS_RESET, read_u16 m ADDRESS_IRQ⟩
  { mem := m
    registers := { RegisterSet.new with pc := vectors.reset }
    vectors := vectors }

/-- A plain Rust `+` on `u8` values: a checked addition that panics on
overflow under debug assertions (release builds wrap to `(a + b) % 256`
instead). Contrast `wrapping_add`, which the source uses only in the
IndirectX pointer stage. -/
def add_u8 (a b : Nat) : CpuResult Nat :=
  if a + b < 256 then .ok (a + b) else .panicked "attempt to add with overflow"

/-- A plain Rust `+` on `u16` values: a checked addition that panics on
overflow under debug assertions (release builds wrap to `(a + b) % 65536`
instead). -/
def add_u16 (a b : Nat) : CpuResult Nat :=
  if a + b < 65536 then .ok (a + b) else .panicked "attempt to add with overflow"

/-- `is_carry` from `src/cpu/mod.rs`: `value_new < input`. -/
def is_carry (input value_new : Nat) : Bool :=
  decide (value_new < input)

/-- `has_overflown` from `src/cpu/mod.rs`: bit 7 of the old value differs
from bit 7 of the new value (`read_bit(7)`). -/
def has_overflown (value_old value_new : Nat) : Bool :=
  Nat.testBit value_old 7 != Nat.testBit value_new 7

/-- `is_negative` from `src/cpu/mod.rs`: bit 7 of the value
(`is_bit_set(7)`). -/
def is_negative (value : Nat) : Bool :=
  Nat.testBit value 7

/-- `Cpu::run_adc`: `a_new = a.wrapping_add(input).wrapping_add(carry)` with
`carry = (p & CARRY).bits()`, then the four flag updates. -/
def Cpu.run_adc (cpu : Cpu) (input : Nat) : Cpu :=
  let carry := if cpu.registers.p.carry then 1 else 0
  let a_old := cpu.registers.a
  let a_new := ((a_old + input) % 256 + carry) % 256
  { cpu with registers :=
      { cpu.registers with
          a := a_new
          p := { cpu.registers.p with
                   carry := is_carry input a_new
                   zero := decide (a_new = 0)
                   overflow := has_overflown a_old a_new
                   negative := is_negative a_new } } }

/-- `Cpu::run_jmp`: unconditionally set the PC. -/
def Cpu.run_jmp (cpu : Cpu) (address : Nat) : Cpu :=
  { cpu with registers := { cpu.registers with pc := address } }

/-- `Cpu::resolve_location_by_mode` from `src/cpu/mod.rs`. `bytes[i]`
indexing of a too-short slice is the Rust index panic; the Relative arm is
the source's `unimplemented!("determine location | Relative")` panic;
ZeroPageX/ZeroPageY and AbsoluteX/AbsoluteY/IndirectY use plain `+`
(`add_u8` / `add_u16`, the source's `// TODO: overflow check` sites), while
IndirectX uses `wrapping_add`. -/
def Cpu.resolve_location_by_mode (cpu : Cpu) (mode : InstructionMode)
    (bytes : List Nat) : CpuResult (Option Location) :=
  match mode with
  | .Implied => .ok none
  | .Accumulator => .ok (some .Accumulator)
  | .Immediate => .ok none
  | .Relative => .panicked "not implemented: determine location | Relative"
  | .ZeroPage =>
    match bytes with
    | b0 :: _ => .ok (some (.Address b0))
    | [] => .panicked "index out of bounds"
  | .ZeroPageX =>
    match bytes with
    | b0 :: _ =>
      match add_u8 b0 cpu.registers.x with
      | .ok address => .ok (some (.Address address))
      | .error m => .error m
      | .panicked m => .panicked m
    | [] => .panicked "index out of bounds"
  | .ZeroPageY =>
    match bytes with
    | b0 :: _ =>
      match add_u8 b0 cpu.registers.y with
      | .ok address => .ok (some (.Address address))
      | .error m => .error m
      | .panicked m => .panicked m
    | [] => .panicked "index out of bounds"
  | .Absolute =>
    match bytes with
    | b0 :: b1 :: _ => .ok (some (.Address (b0 + 256 * b1)))
    | _ => .panicked "index out of bounds"
  | .AbsoluteX =>
    match bytes with
    | b0 :: b1 :: _ =>
      match add_u16 (b0 + 256 * b1) cpu.registers.x with
      | .ok address => .ok (some (.Address address))
      | .error m => .error m
      | .panicked m => .panicked m
    | _ => .panicked "index out of bounds"
  | .AbsoluteY =>
    match bytes with
    | b0 :: b1 :: _ =>
      match add_u16 (b0 + 256 * b1) cpu.registers.y with
      | .ok address => .ok (some (.Address address))
      | .error m => .error m
      | .panicked m => .panicked m
    | _ => .panicked "index out of bounds"
  | .Indirect =>
    match bytes with
    | b0 :: b1 :: _ => .ok (some (.Address (read_u16 cpu.mem (b0 + 256 * b1))))
    | _ => .panicked "index out of bounds"
  | .IndirectX =>
    match bytes with
    | b0 :: _ =>
      .ok (some (.Address (read_zp_u16 cpu.mem ((b0 + cpu.registers.x) % 256))))
    | [] => .panicked "index out of bounds"
  | .IndirectY =>
    match bytes with
    | b0 :: _ =>
      match add_u16 (read_zp_u16 cpu.mem b0) cpu.registers.y with
      | .ok address => .ok (some (.Address address))
      | .error m => .error m
      | .panicked m => .panicked m
    | [] => .panicked "index out of bounds"

/-- `Cpu::resolve_address_by_mode` from `src/cpu/mod.rs`. -/
def Cpu.resolve_address_by_mode (cpu : Cpu) (mode : InstructionMode)
    (bytes : List Nat) : CpuResult Nat :=
  match cpu.resolve_location_by_mode mode bytes with
  | .ok (some (.Address address)) => .ok address
  | .ok (some .Accumulator) => .error "no address found in input location"
  | .ok none => .error "no input location found"
  | .error m => .error m
  | .panicked m => .panicked m

/-- `Cpu::determine_input_byte_from_address` from `src/cpu/mod.rs`. -/
def Cpu.determine_input_byte_from_address (cpu : Cpu) (mode : InstructionMode)
    (bytes : List Nat) : CpuResult Nat :=
  match cpu.resolve_address_by_mode mode bytes with
  | .ok address => .ok (busRead cpu.mem address)
  | .error m => .error m
  | .panicked m => .panicked m

/-- `Cpu::determine_input_byte` from `src/cpu/mod.rs`: Accumulator and
Relative are `Err(anyhow!(..))` returns; Immediate is `bytes[0]` (an index
panic on an empty slice); the remaining address modes read the resolved
address from the bus. -/
def Cpu.determine_input_byte (cpu : Cpu) (mode : InstructionMode)
    (bytes : List Nat) : CpuResult (Option Nat) :=
  match mode with
  | .Implied => .ok none
  | .Accumulator => .error "invalid input byte mode: `Accumulator`"
  | .Immediate =>
    match bytes with
    | b0 :: _ => .ok (some b0)
    | [] => .panicked "index out of bounds"
  | .Relative => .error "invalid input byte mode: `Relative`"
  | .ZeroPage =>
    match cpu.determine_input_byte_from_address mode bytes with
    | .ok value => .ok (some value)
    | .error m => .error m
    | .panicked m => .panicked m
  | .ZeroPageX =>
    match cpu.determine_input_byte_from_address mode bytes with
    | .ok value => .ok (some value)
    | .error m => .error m
    | .panicked m => .panicked m
  | .ZeroPageY =>
    match cpu.determine_input_byte_from_address mode bytes with
    | .ok value => .ok (some value)
    | .error m => .error m
    | .panicked m => .panicked m
  | .Absolute =>
    match cpu.determine_input_byte_from_address mode bytes with
    | .ok value => .ok (some value)
    | .error m => .error m
    | .panicked m => .panicked m
  | .AbsoluteX =>
    match cpu.determine_input_byte_from_address mode bytes with
    | .ok value => .ok (some value)
    | .error m => .error m
    | .panicked m => .panicked m
  | .AbsoluteY =>
    match cpu.determine_input_byte_from_address mode bytes with
    | .ok value => .ok (some value)
    | .error m => .error m
    | .panicked m => .panicked m
  | .Indirect =>
    match cpu.determine_input_byte_from_address mode bytes with
    | .ok value => .ok (some value)
    | .error m => .error m
    | .panicked m => .panicked m
  | .IndirectX =>
    match cpu.determine_input_byte_from_address mode bytes with
    | .ok value => .ok (some value)
    | .error m => .error m
    | .panicked m => .panicked m
  | .IndirectY =>
    match cpu.determine_input_byte_from_address mode bytes with
    | .ok value => .ok (some value)
    | .error m => .error m
    | .panicked m => .panicked m

/-- `Cpu::run_instruction` from `src/cpu/mod.rs`: ADC takes the resolved
input byte (the `.unwrap()` on the `Option` panics when the mode delivers no
byte), JMP takes the resolved address; every other operation is the source's
`_ => unimplemented!()` panic. -/
def Cpu.run_instruction (cpu : Cpu) (instruction : Instruction)
    (bytes : List Nat) : CpuResult Cpu :=
  match instruction.operation with
  | .Adc =>
    match cpu.determine_input_byte instruction.mode bytes with
    | .ok (some input) => .ok (cpu.run_adc input)
    | .ok none => .panicked "called `Option::unwrap()` on a `None` value"
    | .error m => .error m
    | .panicked m => .panicked m
  | .Jmp =>
    match cpu.resolve_address_by_mode instruction.mode bytes with
    | .ok address => .ok (cpu.run_jmp address)
    | .error m => .error m
    | .panicked m => .panicked m
  | _ => .panicked "not implemented"

/-- `Cpu::process_instruction` from `src/cpu/mod.rs`: advance the PC past
the opcode byte only (`pc += 1`, a plain `u16` addition), read the remaining
`len - 1` bytes as operands without advancing the PC past them, then run the
instruction. (The source's `len as u16 - 1` would also panic for `len = 0`
in debug builds; every decodable instruction has `len ≥ 1`, and the model
uses truncated subtraction.) -/
def Cpu.process_instruction (cpu : Cpu) (instruction : Instruction) :
    CpuResult Cpu :=
  match add_u16 cpu.registers.pc 1 with
  | .ok pc1 =>
    let cpu1 : Cpu := { cpu with registers := { cpu.registers with pc := pc1 } }
    let bytes := read_n cpu1.mem pc1 (instruction.len - 1)
    cpu1.run_instruction instruction bytes
  | .error m => .error m
  | .panicked m => .panicked m

/-- `Cpu::determine_instruction_next` from `src/cpu/mod.rs`: read the byte
at the PC, decode it (a panic for unknown opcodes), then return
`Some(instruction)` when `pc + len < ADDRESS_NMI` and `None` (the halting
outcome) otherwise; `pc + len` is a plain `u16` addition. -/
def Cpu.determine_instruction_next (cpu : Cpu) : CpuResult (Option Instruction) :=
  let opcode := busRead cpu.mem cpu.registers.pc
  match Instruction.from_opcode opcode with
  | .ok instruction =>
    match add_u16 cpu.registers.pc instruction.len with
    | .ok sum => if sum < ADDRESS_NMI then .ok (some instruction) else .ok none
    | .error m => .error m
    | .panicked m => .panicked m
  | .error m => .error m
  | .panicked m => .panicked m

/-- `Cpu::start` from `src/cpu/mod.rs`: the fetch-execute loop
(`while let Some(instruction) = self.determine_instruction_next()?`), with a
fuel parameter added for termination; the `error "fuel exhausted"` branch is
a model artifact that the theorems below never reach. -/
def Cpu.start (fuel : Nat) (cpu : Cpu) : CpuResult Cpu :=
  match fuel with
  | 0 => .error "fuel exhausted"
  | fuel1 + 1 =>
    match cpu.determine_instruction_next with
    | .ok (some instruction) =>
      match cpu.process_instruction instruction with
      | .ok cpu1 => Cpu.start fuel1 cpu1
      | .error m => .error m
      | .panicked m => .panicked m
    | .ok none => .ok cpu
    | .error m => .error m
    | .panicked m => .panicked m

/-- Projection of a fetch-execute outcome to the register file, used to
state concrete end-to-end evaluations without comparing the (functional)
memory component. -/
def CpuResult.registersOf : CpuResult Cpu → CpuResult RegisterSet
  | .ok cpu => .ok cpu.registers
  | .error m => .error m
  | .panicked m => .panicked m

/-- C1: for every accumulator value, input byte and carry-in (0 or 1,
determined by the Carry flag), `run_adc` stores `(a + input + carry) % 256`
in the accumulator, sets Carry iff the result is less than the input, Zero
iff the result is 0, Negative to bit 7 of the result, and Overflow iff bit 7
of the old accumulator differs from bit 7 of the result. -/
theorem adc_result_and_flags (cpu : Cpu) (input : Nat) :
    ((cpu.run_adc input).registers.a
        = (cpu.registers.a + input + (if cpu.registers.p.carry then 1 else 0)) % 256)
    ∧ (cpu.run_adc input).registers.p.carry
        = decide ((cpu.run_adc input).registers.a < input)
    ∧ (cpu.run_adc input).registers.p.zero
        = decide ((cpu.run_adc input).registers.a = 0)
    ∧ (cpu.run_adc input).registers.p.negative
        = Nat.testBit (cpu.run_adc input).registers.a 7
    ∧ (cpu.run_adc input).registers.p.overflow
        = (Nat.testBit cpu.registers.a 7 != Nat.testBit (cpu.run_adc input).registers.a 7) := by
  refine ⟨?_, rfl, rfl, rfl, rfl⟩
  simp only [Cpu.run_adc]
  omega

/-- C10: applying the ADC operation itself mutates only the accumulator and
the status flags — the X, Y and S registers and the program counter are
unchanged. -/
theorem adc_frame (cpu : Cpu) (input : Nat) :
    (cpu.run_adc input).registers.x = cpu.registers.x
    ∧ (cpu.run_adc input).registers.y = cpu.registers.y
    ∧ (cpu.run_adc input).registers.s = cpu.registers.s
    ∧ (cpu.run_adc input).registers.pc = cpu.registers.pc :=
  ⟨rfl, rfl, rfl, rfl⟩

/-- C9: executing JMP in Absolute mode with operand bytes `[0x00, 0x90]`
sets the PC to 0x9000 regardless of the prior register state (and of the
irrelevant descriptor fields), leaving every status flag — indeed every
other component of the state — unchanged. -/
theorem jmp_absolute_sets_pc (cpu : Cpu) (opcode length cycles : Nat) :
    cpu.run_instruction ⟨opcode, .Jmp, .Absolute, length, cycles⟩ [0x00, 0x90]
      = .ok { cpu with registers := { cpu.registers with pc := 0x9000 } } := by
  norm_num [Cpu.run_instruction, Cpu.resolve_address_by_mode,
    Cpu.resolve_location_by_mode, Cpu.run_jmp]

/-- Memory image for the end-to-end ADC check: reset vector (0xFFFC) holds
0x8000 little-endian, and 0x8000..0x8002 hold `[ADC_IMMEDIATE, 0x05]`. -/
def c2_mem : Mem := fun address =>
  if address = 0x8000 then ADC_IMMEDIATE
  else if address = 0x8001 then 0x05
  else if address = 0xFFFC then 0x00
  else if address = 0xFFFD then 0x80
  else 0

/-- The processor of the end-to-end ADC check, with the accumulator pre-set
to 0x01 (the Carry flag starts clear in `RegisterSet::new`). -/
def c2_cpu : Cpu :=
  let base := Cpu.new c2_mem
  { base with registers := { base.registers with a := 0x01 } }

/-- The instruction the fetch decodes in the end-to-end ADC check. -/
def c2_instruction : Instruction := ⟨ADC_IMMEDIATE, .Adc, .Immediate, 2, 2⟩

/-- C2 (evaluation at the failing input): one fetch-execute step of the
described processor yields A = 0x06 with Carry, Zero, Overflow and Negative
all clear — but the program counter ends at 0x8001, not 0x8002:
`process_instruction` advances the PC only past the opcode byte and nothing
ever advances it past the operand byte. -/
theorem adc_immediate_end_to_end_eval :
    c2_cpu.registers.pc = 0x8000
    ∧ c2_cpu.determine_instruction_next = .ok (some c2_instruction)
    ∧ (c2_cpu.process_instruction c2_instruction).registersOf
        = .ok { a := 0x06, x := 0, y := 0, s := 0xFF,
                p := StatusFlags.empty, pc := 0x8001 } := by
  decide

/-- The opcode bytes the decode table maps, in the order of the source's
`match_opcode!` block. -/
def known_opcodes : List Nat :=
  [ADC_IMMEDIATE, ASL_ACCUMULATOR, ASL_ZERO_PAGE_X, CLC_IMPLIED, CLD_IMPLIED,
   CLI_IMPLIED, CLV_IMPLIED, INX_IMPLIED, INY_IMPLIED, LDA_ABSOLUTE,
   LDX_IMMEDIATE, NOP_IMPLIED, SEC_IMPLIED, SED_IMPLIED, SEI_IMPLIED,
   TAX_IMPLIED, TAY_IMPLIED, TXA_IMPLIED, TYA_IMPLIED]

/-- C3 (counterexample): the byte 0x05 has no mapping in the decode table,
and decoding it panics (the `unimplemented!` arm of `match_opcode!`) instead
of failing with a decode-failure error value, contradicting the claim's
"never a crash or panic". -/
theorem decode_unknown_opcode_panics_eval :
    Instruction.from_opcode 0x05
      = .panicked "not implemented: no instruction found for opcode" := by
  decide

/-- C3 (amended): decoding a byte present in the opcode table returns
exactly its documented `(operation, mode, length, base_cycles)` descriptor,
and decoding any byte with no known mapping panics via `unimplemented!`
(never a silently substituted default instruction, but a panic rather than a
decode-failure error value). -/
theorem decode_table_characterization :
    (Instruction.from_opcode ADC_IMMEDIATE = .ok ⟨ADC_IMMEDIATE, .Adc, .Immediate, 2, 2⟩
      ∧ Instruction.from_opcode ASL_ACCUMULATOR = .ok ⟨ASL_ACCUMULATOR, .Asl, .Accumulator, 1, 2⟩
      ∧ Instruction.from_opcode ASL_ZERO_PAGE_X = .ok ⟨ASL_ZERO_PAGE_X, .Asl, .ZeroPageX, 2, 6⟩
      ∧ Instruction.from_opcode CLC_IMPLIED = .ok ⟨CLC_IMPLIED, .Clc, .Implied, 1, 2⟩
      ∧ Instruction.from_opcode CLD_IMPLIED = .ok ⟨CLD_IMPLIED, .Cld, .Implied, 1, 2⟩
      ∧ Instruction.from_opcode CLI_IMPLIED = .ok ⟨CLI_IMPLIED, .Cli, .Implied, 1, 2⟩
      ∧ Instruction.from_opcode CLV_IMPLIED = .ok ⟨CLV_IMPLIED, .Clv, .Implied, 1, 2⟩
      ∧ Instruction.from_opcode INX_IMPLIED = .ok ⟨INX_IMPLIED, .Inx, .Implied, 1, 2⟩
      ∧ Instruction.from_opcode INY_IMPLIED = .ok ⟨INY_IMPLIED, .Iny, .Implied, 1, 2⟩
      ∧ Instruction.from_opcode LDA_ABSOLUTE = .ok ⟨LDA_ABSOLUTE, .Lda, .Absolute, 3, 4⟩
      ∧ Instruction.from_opcode LDX_IMMEDIATE = .ok ⟨LDX_IMMEDIATE, .Ldx, .Immediate, 2, 2⟩
      ∧ Instruction.from_opcode NOP_IMPLIED = .ok ⟨NOP_IMPLIED, .Nop, .Implied, 1, 2⟩
      ∧ Instruction.from_opcode SEC_IMPLIED = .ok ⟨SEC_IMPLIED, .Sec, .Implied, 1, 2⟩
      ∧ Instruction.from_opcode SED_IMPLIED = .ok ⟨SED_IMPLIED, .Sed, .Implied, 1, 2⟩
      ∧ Instruction.from_opcode SEI_IMPLIED = .ok ⟨SEI_IMPLIED, .Sei, .Implied, 1, 2⟩
      ∧ Instruction.from_opcode TAX_IMPLIED = .ok ⟨TAX_IMPLIED, .Tax, .Implied, 1, 2⟩
      ∧ Instruction.from_opcode TAY_IMPLIED = .ok ⟨TAY_IMPLIED, .Tay, .Implied, 1, 2⟩
      ∧ Instruction.from_opcode TXA_IMPLIED = .ok ⟨TXA_IMPLIED, .Txa, .Implied, 1, 2⟩
      ∧ Instruction.from_opcode TYA_IMPLIED = .ok ⟨TYA_IMPLIED, .Tya, .Implied, 1, 2⟩)
    ∧ ∀ opcode : Nat, opcode ∉ known_opcodes →
        Instruction.from_opcode opcode
          = .panicked "not implemented: no instruction found for opcode" := by
  refine ⟨by decide, ?_⟩
  intro opcode h
  simp only [known_opcodes, ADC_IMMEDIATE, ASL_ACCUMULATOR, ASL_ZERO_PAGE_X,
    CLC_IMPLIED, CLD_IMPLIED, CLI_IMPLIED, CLV_IMPLIED, INX_IMPLIED,
    INY_IMPLIED, LDA_ABSOLUTE, LDX_IMMEDIATE, NOP_IMPLIED, SEC_IMPLIED,
    SED_IMPLIED, SEI_IMPLIED, TAX_IMPLIED, TAY_IMPLIED, TXA_IMPLIED,
    TYA_IMPLIED, List.mem_cons, List.not_mem_nil, or_false, not_or] at h
  obtain ⟨h1, h2, h3, h4, h5, h6, h7, h8, h9, h10, h11, h12, h13, h14, h15,
    h16, h17, h18, h19⟩ := h
  simp [Instruction.from_opcode, ADC_IMMEDIATE, ASL_ACCUMULATOR,
    ASL_ZERO_PAGE_X, CLC_IMPLIED, CLD_IMPLIED, CLI_IMPLIED, CLV_IMPLIED,
    INX_IMPLIED, INY_IMPLIED, LDA_ABSOLUTE, LDX_IMMEDIATE, NOP_IMPLIED,
    SEC_IMPLIED, SED_IMPLIED, SEI_IMPLIED, TAX_IMPLIED, TAY_IMPLIED,
    TXA_IMPLIED, TYA_IMPLIED, h1, h2, h3, h4, h5, h6, h7, h8, h9, h10, h11,
    h12, h13, h14, h15, h16, h17, h18, h19]

/-- C3 (witness): the amended characterization applied at the unmapped byte
0x03. -/
theorem decode_table_characterization_witness :
    Instruction.from_opcode 0x03
      = .panicked "not implemented: no instruction found for opcode" :=
  decode_table_characterization.2 0x03 (by decide)

/-- A processor with both index registers set to 0x01, for the zero-page
indexed overflow evaluation. -/
def c4_cpu : Cpu :=
  { mem := fun _ => 0
    registers := { RegisterSet.new with x := 0x01, y := 0x01 }
    vectors := ⟨0, 0, 0⟩ }

/-- C4 (evaluation at the failing input): resolving ZeroPageX with operand
byte 0xFF and X = 0x01 (likewise ZeroPageY with Y = 0x01) performs a plain
`u8` addition whose overflow panics under debug assertions — only release
builds wrap — instead of the claimed 8-bit wraparound; the IndirectX pointer
stage, which uses `wrapping_add`, does wrap to a zero-page address as
claimed. -/
theorem zero_page_indexed_overflow_eval :
    c4_cpu.resolve_location_by_mode .ZeroPageX [0xFF]
      = .panicked "attempt to add with overflow"
    ∧ c4_cpu.resolve_location_by_mode .ZeroPageY [0xFF]
      = .panicked "attempt to add with overflow"
    ∧ c4_cpu.resolve_location_by_mode .IndirectX [0xFF]
      = .ok (some (.Address 0)) := by
  decide

/-- A processor with default registers over zeroed memory. -/
def c5_cpu : Cpu :=
  { mem := fun _ => 0, registers := RegisterSet.new, vectors := ⟨0, 0, 0⟩ }

/-- C5 (counterexample): requesting a memory-location resolution under
Relative mode does not return an invalid-addressing error — it hits the
source's `unimplemented!("determine location | Relative")` panic. -/
theorem relative_location_panics_eval :
    c5_cpu.resolve_location_by_mode .Relative [0x00]
      = .panicked "not implemented: determine location | Relative" := by
  decide

/-- C5 (amended): in every call, byte-input resolution under Accumulator or
Relative mode fails with the invalid-input-byte error returned to the
caller; memory-location resolution under Relative mode, however, panics via
`unimplemented!` rather than returning an error. -/
theorem invalid_addressing_requests (cpu : Cpu) (bytes : List Nat) :
    cpu.determine_input_byte .Accumulator bytes
      = .error "invalid input byte mode: `Accumulator`"
    ∧ cpu.determine_input_byte .Relative bytes
      = .error "invalid input byte mode: `Relative`"
    ∧ cpu.resolve_location_by_mode .Relative bytes
      = .panicked "not implemented: determine location | Relative" :=
  ⟨rfl, rfl, rfl⟩

/-- Memory for the C6 counterexample: reset vector 0xFFF9, every other
location the unmapped opcode byte 0x02. -/
def c6_mem : Mem := fun address =>
  if address = 0xFFFC then 0xF9
  else if address = 0xFFFD then 0xFF
  else 0x02

/-- C6 (counterexample): at PC = 0xFFF9 any instruction length makes
`pc + len` land at or past 0xFFFA, so the claim requires a transition to
Halted; but the loop reads and decodes the byte at the PC before the halting
check, and the unmapped byte 0x02 makes the decoder panic — the run crashes
instead of halting. -/
theorem halt_preempted_by_decode_eval :
    (Cpu.new c6_mem).registers.pc = 0xFFF9
    ∧ (Cpu.new c6_mem).determine_instruction_next
        = .panicked "not implemented: no instruction found for opcode"
    ∧ (Cpu.start 1 (Cpu.new c6_mem)).registersOf
        = .panicked "not implemented: no instruction found for opcode" := by
  decide

/-- C6 (amended): when the byte at the PC decodes to an instruction and the
16-bit sum `pc + len` does not overflow, `determine_instruction_next`
signals the halting transition (`Ok(None)`) exactly when `pc + len` lands at
or past 0xFFFA; and once a step's determination halts, the loop returns
immediately — performing no further bus reads. (A fetch of an undecodable
byte, or an overflowing `pc + len`, panics before the halting check.) -/
theorem halting_condition_amended :
    (∀ (cpu : Cpu) (instruction : Instruction),
        Instruction.from_opcode (busRead cpu.mem cpu.registers.pc) = .ok instruction →
        cpu.registers.pc + instruction.len < 65536 →
        (cpu.determine_instruction_next = .ok none
          ↔ ADDRESS_NMI ≤ cpu.registers.pc + instruction.len))
    ∧ ∀ (fuel : Nat) (cpu : Cpu),
        cpu.determine_instruction_next = .ok none →
        Cpu.start (fuel + 1) cpu = .ok cpu := by
  constructor
  · intro cpu instruction hdec hnoflow
    simp only [Cpu.determine_instruction_next, hdec, add_u16, ADDRESS_NMI,
      if_pos hnoflow]
    split
    · simp only [CpuResult.ok.injEq]
      constructor
      · intro h
        exact absurd h (by simp)
      · omega
    · simp only [CpuResult.ok.injEq]
      constructor
      · intro _
        omega
      · intro _
        trivial
  · intro fuel cpu h
    simp only [Cpu.start, h]

/-- Memory for the C6 witness: reset vector 0xFFF9, NOP (0xEA) everywhere
else, so the very first determination halts. -/
def c6_nop_mem : Mem := fun address =>
  if address = 0xFFFC then 0xF9
  else if address = 0xFFFD then 0xFF
  else 0xEA

/-- C6 (witness): the amended theorem applied at a concrete processor whose
PC sits at 0xFFF9 over NOPs — the determination halts and the loop returns
at once. -/
theorem halting_condition_amended_witness :
    (Cpu.new c6_nop_mem).determine_instruction_next = .ok none
    ∧ Cpu.start 4 (Cpu.new c6_nop_mem) = .ok (Cpu.new c6_nop_mem) := by
  have h : (Cpu.new c6_nop_mem).determine_instruction_next = .ok none :=
    (halting_condition_amended.1 (Cpu.new c6_nop_mem)
      ⟨0xEA, .Nop, .Implied, 1, 2⟩ (by decide) (by decide)).mpr (by decide)
  exact ⟨h, halting_condition_amended.2 3 (Cpu.new c6_nop_mem) h⟩

/-- A processor with X = 0x01 over zeroed memory, for the 16-bit overflow
evaluation. -/
def c7_cpu : Cpu :=
  { mem := fun _ => 0
    registers := { RegisterSet.new with x := 0x01 }
    vectors := ⟨0, 0, 0⟩ }

/-- C7 (counterexample): resolving AbsoluteX with operand bytes
`[0xFF, 0xFF]` and X = 0x01 does not wrap past 0xFFFF to 0x0000 — the plain
`u16` addition (the source's `// TODO: overflow check` site) panics under
debug assertions, so the resolution is not total. -/
theorem absolute_x_overflow_eval :
    c7_cpu.resolve_location_by_mode .AbsoluteX [0xFF, 0xFF]
      = .panicked "attempt to add with overflow" := by
  decide

/-- C7 (amended): AbsoluteX/AbsoluteY resolve to the little-endian absolute
value plus X or Y, and IndirectY to the zero-page pointer's 16-bit value
plus Y, whenever that sum stays within 16 bits; a sum beyond 0xFFFF is an
unchecked Rust addition — an overflow panic under debug assertions rather
than a guaranteed wrap to 0x0000. -/
theorem absolute_indexed_sums :
    (∀ (cpu : Cpu) (b0 b1 : Nat) (rest : List Nat),
        b0 + 256 * b1 + cpu.registers.x < 65536 →
        cpu.resolve_location_by_mode .AbsoluteX (b0 :: b1 :: rest)
          = .ok (some (.Address (b0 + 256 * b1 + cpu.registers.x))))
    ∧ (∀ (cpu : Cpu) (b0 b1 : Nat) (rest : List Nat),
        b0 + 256 * b1 + cpu.registers.y < 65536 →
        cpu.resolve_location_by_mode .AbsoluteY (b0 :: b1 :: rest)
          = .ok (some (.Address (b0 + 256 * b1 + cpu.registers.y))))
    ∧ (∀ (cpu : Cpu) (b0 : Nat) (rest : List Nat),
        read_zp_u16 cpu.mem b0 + cpu.registers.y < 65536 →
        cpu.resolve_location_by_mode .IndirectY (b0 :: rest)
          = .ok (some (.Address (read_zp_u16 cpu.mem b0 + cpu.registers.y)))) := by
  refine ⟨?_, ?_, ?_⟩
  · intro cpu b0 b1 rest h
    simp [Cpu.resolve_location_by_mode, add_u16, if_pos h]
  · intro cpu b0 b1 rest h
    simp [Cpu.resolve_location_by_mode, add_u16, if_pos h]
  · intro cpu b0 rest h
    simp [Cpu.resolve_location_by_mode, add_u16, if_pos h]

/-- A processor with X = 0x01 and Y = 0x02 over zeroed memory, for the
witness of the amended C7 theorem. -/
def c7_witness_cpu : Cpu :=
  { mem := fun _ => 0
    registers := { RegisterSet.new with x := 0x01, y := 0x02 }
    vectors := ⟨0, 0, 0⟩ }

/-- C7 (witness): the amended theorem applied at in-range concrete sums. -/
theorem absolute_indexed_sums_witness :
    c7_witness_cpu.resolve_location_by_mode .AbsoluteX [0x00, 0x90]
      = .ok (some (.Address 0x9001))
    ∧ c7_witness_cpu.resolve_location_by_mode .AbsoluteY [0x00, 0x90]
      = .ok (some (.Address 0x9002))
    ∧ c7_witness_cpu.resolve_location_by_mode .IndirectY [0x10]
      = .ok (some (.Address 0x0002)) :=
  ⟨absolute_indexed_sums.1 c7_witness_cpu 0x00 0x90 [] (by decide),
   absolute_indexed_sums.2.1 c7_witness_cpu 0x00 0x90 [] (by decide),
   absolute_indexed_sums.2.2 c7_witness_cpu 0x10 [] (by decide)⟩

/-- A processor with default registers over zeroed memory, for the
unimplemented-operation evaluations. -/
def c8_cpu : Cpu :=
  { mem := fun _ => 0, registers := RegisterSet.new, vectors := ⟨0, 0, 0⟩ }

/-- C8 (counterexample): ASL Accumulator decodes fine (opcode 0x0A is in the
table), but its operation has no arm in `run_instruction`, and executing it
panics via the catch-all `unimplemented!()` instead of failing with an
"operation not implemented" error value. -/
theorem unimplemented_operation_eval :
    c8_cpu.run_instruction ⟨0x0A, .Asl, .Accumulator, 1, 2⟩ []
      = .panicked "not implemented" :=
  rfl

/-- C8 (amended): executing any decoded instruction whose operation is
neither ADC nor JMP hits `run_instruction`'s catch-all `unimplemented!()` —
a panic (message "not implemented", distinct from the decoder's panic
message) rather than a returned error value; it neither silently no-ops nor
alters any state. -/
theorem unimplemented_operation_panics (cpu : Cpu) (instruction : Instruction)
    (bytes : List Nat) (h1 : instruction.operation ≠ .Adc)
    (h2 : instruction.operation ≠ .Jmp) :
    cpu.run_instruction instruction bytes = .panicked "not implemented" := by
  cases hop : instruction.operation <;>
    simp only [Cpu.run_instruction, hop] <;> first | rfl | simp_all

/-- C8 (witness): the amended theorem applied at a concrete NOP
instruction. -/
theorem unimplemented_operation_panics_witness :
    c8_cpu.run_instruction ⟨0xEA, .Nop, .Implied, 1, 2⟩ []
      = .panicked "not implemented" :=
  unimplemented_operation_panics c8_cpu ⟨0xEA, .Nop, .Implied, 1, 2⟩ []
    (by decide) (by decide)

end NesCpu
